import Mathlib

/-!
Shallow embedding of the snake game in `src/main.rs`.

Conventions of the embedding:
* `Position` / `Direction` / `Snake` / `Food` / `Game` mirror the Rust
  structs field by field.
* The snake body (a `VecDeque<Position>` in the source, front = head) is a
  `List Position`; `push_front` is `::`, `pop_back` is `dropLast`.
* Wall-clock time (`f64` from `get_time()`) is modelled as `ℚ`; the tick
  gate `current_time - last_update >= update_interval` is an exact rational
  comparison.
* The RNG (`thread_rng` + `gen_range`) is modelled as an oracle stream
  `draws : Nat → Position` of successive `random_position()` results.
  `Food::randomize`, whose source loops drawing positions until one lies
  outside the snake body, returns the first draw not in the body; its
  unbounded retry loop is total only under the hypothesis that some draw
  escapes the body, which the embedding takes as an explicit argument.
* `body.front().unwrap()` panics on an empty body in the source; the
  embedding reads the head with a default and its theorems only concern
  non-empty bodies (every reachable snake has length ≥ 2).
-/

/-- `CELL_NUMBER_X = (800.0 / 20.0) as i32`. -/
def CELL_NUMBER_X : Int := 40

/-- `CELL_NUMBER_Y = (600.0 / 20.0) as i32`. -/
def CELL_NUMBER_Y : Int := 30

/-- `struct Position { x: i32, y: i32 }`. -/
structure Position where
  x : Int
  y : Int
deriving DecidableEq

/-- `enum Direction { Up, Down, Left, Right }`. -/
inductive Direction where
  | up
  | down
  | left
  | right
deriving DecidableEq

/-- The exact opposite of a cardinal direction (used to state the
reversal guard; the source writes the four pairs out in a `match`). -/
def Direction.opposite : Direction → Direction
  | .up => .down
  | .down => .up
  | .left => .right
  | .right => .left

/-- `struct Snake { body: VecDeque<Position>, direction: Direction, grow_next: bool }`. -/
structure Snake where
  body : List Position
  direction : Direction
  grow_next : Bool
deriving DecidableEq

/-- `Snake::new()`: body `[(5,10),(4,10),(3,10)]`, heading `Right`, no growth. -/
def Snake.new : Snake where
  body := [⟨5, 10⟩, ⟨4, 10⟩, ⟨3, 10⟩]
  direction := .right
  grow_next := false

/-- Head cell, `*self.body.front().unwrap()` (defaulted on `[]`, which the
source would panic on). -/
def Snake.headPos (s : Snake) : Position :=
  s.body.headD ⟨0, 0⟩

/-- The `new_head` computation inside `Snake::update`: the head shifted one
cell in the given direction. -/
def nextHead (head : Position) : Direction → Position
  | .up => ⟨head.x, head.y - 1⟩
  | .down => ⟨head.x, head.y + 1⟩
  | .left => ⟨head.x - 1, head.y⟩
  | .right => ⟨head.x + 1, head.y⟩

/-- `Snake::update`: push the shifted head to the front; then either pop the
tail (`grow_next` false) or keep it and clear the flag (`grow_next` true). -/
def Snake.update (s : Snake) : Snake :=
  match s.body.head? with
  | none => s
  | some head =>
    let new_head := nextHead head s.direction
    let pushed := new_head :: s.body
    if s.grow_next then
      { s with body := pushed, grow_next := false }
    else
      { s with body := pushed.dropLast }

/-- `Snake::grow`: sets `grow_next = true`. -/
def Snake.grow (s : Snake) : Snake :=
  { s with grow_next := true }

/-- `Snake::change_direction`: drops the request when it is the exact
opposite of the current direction, otherwise overwrites `direction`. -/
def Snake.change_direction (s : Snake) (new_direction : Direction) : Snake :=
  match s.direction, new_direction with
  | .up, .down => s
  | .down, .up => s
  | .left, .right => s
  | .right, .left => s
  | _, _ => { s with direction := new_direction }

/-- `Snake::check_wall_collision`:
`head.x < 0 || head.x >= CELL_NUMBER_X || head.y < 0 || head.y >= CELL_NUMBER_Y`. -/
def Snake.check_wall_collision (s : Snake) : Bool :=
  let head := s.headPos
  decide (head.x < 0) || decide (CELL_NUMBER_X ≤ head.x) ||
    decide (head.y < 0) || decide (CELL_NUMBER_Y ≤ head.y)

/-- `Snake::check_self_collision`:
`self.body.iter().skip(1).any(|&segment| segment == head)`. -/
def Snake.check_self_collision (s : Snake) : Bool :=
  let head := s.headPos
  (s.body.drop 1).any (fun segment => segment = head)

/-- `struct Food { position: Position }`. -/
structure Food where
  position : Position
deriving DecidableEq

/-- `Food::random_position`: one fresh draw from the RNG oracle. -/
def Food.random_position (draw : Position) : Position :=
  draw

/-- `Food::new()`: one random position, with no check against any snake. -/
def Food.new (draws : Nat → Position) : Food where
  position := Food.random_position (draws 0)

/-- `Food::randomize(snake_body)`: loop drawing random positions, stopping
at the first one not contained in `snake_body`.  Totality of the unbounded
loop needs the hypothesis `h` that some draw escapes the body. -/
def Food.randomize (_f : Food) (snake_body : List Position)
    (draws : Nat → Position) (h : ∃ n, draws n ∉ snake_body) : Food :=
  ⟨draws (Nat.find h)⟩

/-- `struct Game`; `last_update`/`update_interval` are the `f64` clock
fields, modelled as rationals. -/
structure Game where
  snake : Snake
  food : Food
  score : Nat
  game_over : Bool
  last_update : ℚ
  update_interval : ℚ
deriving DecidableEq

/-- `Game::new()`: fresh snake and food, score 0, not game over,
`last_update = get_time()` (passed in as `t`), interval 0.15 s. -/
def Game.new (t : ℚ) (draws : Nat → Position) : Game where
  snake := Snake.new
  food := Food.new draws
  score := 0
  game_over := false
  last_update := t
  update_interval := 3 / 20

/-- `Game::check_food_collision`: if the head sits on the food, request
growth, bump the score, and relocate the food off the (unchanged) body. -/
def Game.check_food_collision (g : Game) (draws : Nat → Position)
    (h : (g.snake).headPos = g.food.position → ∃ n, draws n ∉ (g.snake).body) :
    Game :=
  if heq : (g.snake).headPos = g.food.position then
    { g with
      snake := (g.snake).grow
      score := g.score + 1
      food := (g.food).randomize ((g.snake).grow).body draws (h heq) }
  else
    g

/-- `Game::check_game_over`: set `game_over` when the snake hit a wall or
itself. -/
def Game.check_game_over (g : Game) : Game :=
  if (g.snake).check_wall_collision || (g.snake).check_self_collision then
    { g with game_over := true }
  else
    g

/-- `Game::update`: no-op when game over; otherwise, when at least
`update_interval` elapsed since `last_update`, run one tick —
`snake.update()`, food check, game-over check — and stamp `last_update`
with the current time. -/
def Game.update (g : Game) (t : ℚ) (draws : Nat → Position)
    (h : ((g.snake).update).headPos = g.food.position →
      ∃ n, draws n ∉ ((g.snake).update).body) : Game :=
  if g.game_over then
    g
  else if g.update_interval ≤ t - g.last_update then
    let g1 : Game := { g with snake := (g.snake).update }
    let g2 := g1.check_food_collision draws h
    let g3 := g2.check_game_over
    { g3 with last_update := t }
  else
    g

/-- The per-frame key state: the four direction keys plus the restart key
(`Space`), as reported by `is_key_pressed`. -/
structure Input where
  up : Bool
  down : Bool
  left : Bool
  right : Bool
  space : Bool
deriving DecidableEq

/-- `Game::handle_input`: apply each pressed direction key in the source's
fixed order `Up, Down, Left, Right`, then, when game over and `Space` is
pressed, replace the whole game with `Game::new()`. -/
def Game.handle_input (g : Game) (inp : Input) (t : ℚ)
    (draws : Nat → Position) : Game :=
  let g1 := if inp.up then { g with snake := (g.snake).change_direction .up } else g
  let g2 := if inp.down then { g1 with snake := (g1.snake).change_direction .down } else g1
  let g3 := if inp.left then { g2 with snake := (g2.snake).change_direction .left } else g2
  let g4 := if inp.right then { g3 with snake := (g3.snake).change_direction .right } else g3
  if g4.game_over && inp.space then Game.new t draws else g4

/-! ### Helper definitions for stating the claims -/

/-- Apply a sequence of direction-change requests in order
(each one a `change_direction` call, as `handle_input` issues them). -/
def applyDirections (s : Snake) (ds : List Direction) : Snake :=
  ds.foldl Snake.change_direction s

/-- The snake after the (up, down, left, right) keys pressed this frame are
applied in `handle_input`'s fixed order. -/
def applyKeys (s : Snake) (inp : Input) : Snake :=
  let s1 := if inp.up then s.change_direction .up else s
  let s2 := if inp.down then s1.change_direction .down else s1
  let s3 := if inp.left then s2.change_direction .left else s2
  if inp.right then s3.change_direction .right else s3

/-- One rendered frame without a tick gate: `handle_input` then `update`,
with the clock and RNG oracles of that frame. -/
inductive FrameStep : Game → Game → Prop where
  | mk : ∀ (g : Game) (inp : Input) (t : ℚ) (draws : Nat → Position)
      (t2 : ℚ) (draws2 : Nat → Position)
      (h : (((g.handle_input inp t draws).snake).update).headPos =
             (g.handle_input inp t draws).food.position →
           ∃ n, draws2 n ∉ (((g.handle_input inp t draws).snake).update).body),
      FrameStep g ((g.handle_input inp t draws).update t2 draws2 h)

/-- A frame whose input does not press the restart key. -/
inductive FrameStepNR : Game → Game → Prop where
  | mk : ∀ (g : Game) (inp : Input) (t : ℚ) (draws : Nat → Position)
      (t2 : ℚ) (draws2 : Nat → Position)
      (h : (((g.handle_input inp t draws).snake).update).headPos =
             (g.handle_input inp t draws).food.position →
           ∃ n, draws2 n ∉ (((g.handle_input inp t draws).snake).update).body),
      inp.space = false →
      FrameStepNR g ((g.handle_input inp t draws).update t2 draws2 h)

/-- A game state reachable from some fresh instance by per-frame steps. -/
def Reachable (g : Game) : Prop :=
  ∃ (t : ℚ) (draws : Nat → Position),
    Relation.ReflTransGen FrameStep (Game.new t draws) g

/-- The session invariant of claim C10: body length plus the pending-growth
bit equals `3 + score`. -/
def Invariant (g : Game) : Prop :=
  (g.snake).body.length + (if (g.snake).grow_next then 1 else 0) = 3 + g.score

/-! ### Basic lemmas -/

theorem change_direction_body (s : Snake) (d : Direction) :
    (s.change_direction d).body = s.body := by
  obtain ⟨b, dir, gn⟩ := s
  cases dir <;> cases d <;> rfl

theorem change_direction_grow (s : Snake) (d : Direction) :
    (s.change_direction d).grow_next = s.grow_next := by
  obtain ⟨b, dir, gn⟩ := s
  cases dir <;> cases d <;> rfl

theorem handle_input_eq (g : Game) (inp : Input) (t : ℚ)
    (draws : Nat → Position) :
    g.handle_input inp t draws =
      if g.game_over && inp.space then Game.new t draws
      else { g with snake := applyKeys (g.snake) inp } := by
  obtain ⟨u, d, l, r, sp⟩ := inp
  cases u <;> cases d <;> cases l <;> cases r <;> rfl

theorem applyKeys_body (s : Snake) (inp : Input) :
    (applyKeys s inp).body = s.body := by
  obtain ⟨u, d, l, r, sp⟩ := inp
  cases u <;> cases d <;> cases l <;> cases r <;>
    simp [applyKeys, change_direction_body]

theorem applyKeys_grow (s : Snake) (inp : Input) :
    (applyKeys s inp).grow_next = s.grow_next := by
  obtain ⟨u, d, l, r, sp⟩ := inp
  cases u <;> cases d <;> cases l <;> cases r <;>
    simp [applyKeys, change_direction_grow]

theorem update_of_game_over (g : Game) (t : ℚ) (draws : Nat → Position)
    (h : ((g.snake).update).headPos = g.food.position →
      ∃ n, draws n ∉ ((g.snake).update).body)
    (hgo : g.game_over = true) :
    g.update t draws h = g := by
  simp [Game.update, hgo]

/-! ### Claims -/

/-- C2: `advance()` pushes the head shifted one cell in the current
direction onto the front; without pending growth the tail is dropped (length
unchanged), with pending growth the tail is kept (length + 1) and the flag
is cleared. -/
theorem C2_snake_update (s : Snake) (p : Position) (rest : List Position)
    (hb : s.body = p :: rest) :
    (s.grow_next = false →
      (s.update).body = nextHead p s.direction :: (p :: rest).dropLast ∧
      (s.update).body.length = s.body.length ∧
      (s.update).grow_next = false) ∧
    (s.grow_next = true →
      (s.update).body = nextHead p s.direction :: p :: rest ∧
      (s.update).body.length = s.body.length + 1 ∧
      (s.update).grow_next = false) := by
  obtain ⟨b, dir, gn⟩ := s
  subst hb
  constructor
  · rintro rfl
    refine ⟨?_, ?_, ?_⟩ <;>
      simp [Snake.update, List.dropLast]
  · rintro rfl
    refine ⟨rfl, ?_, rfl⟩
    simp [Snake.update]

/-- C2 witness: Scenario A — the start snake `[(5,10),(4,10),(3,10)]`
heading right advances to `[(6,10),(5,10),(4,10)]` with length 3. -/
theorem C2_snake_update_witness :
    (Snake.new).update.body = [⟨6, 10⟩, ⟨5, 10⟩, ⟨4, 10⟩] ∧
    (Snake.new).update.body.length = 3 := by
  have h := (C2_snake_update Snake.new ⟨5, 10⟩ [⟨4, 10⟩, ⟨3, 10⟩] rfl).1 rfl
  exact ⟨by rw [h.1]; rfl, h.2.1⟩

/-- C4: `set_direction` drops a request for the exact opposite of the
current direction (whole state unchanged) and otherwise overwrites
`direction`; for snakes of length ≥ 2 a reversal request leaves the
direction unchanged; and for a burst of requests in one frame the last
accepted request wins. -/
theorem C4_change_direction :
    (∀ (s : Snake) (d : Direction), d = (s.direction).opposite →
      s.change_direction d = s) ∧
    (∀ (s : Snake) (d : Direction), d ≠ (s.direction).opposite →
      s.change_direction d = { s with direction := d }) ∧
    (∀ s : Snake, 2 ≤ s.body.length →
      (s.change_direction ((s.direction).opposite)).direction = s.direction) ∧
    (∀ (s : Snake) (ds : List Direction) (d : Direction),
      d ≠ ((applyDirections s ds).direction).opposite →
      (applyDirections s (ds ++ [d])).direction = d) := by
  have h1 : ∀ (s : Snake) (d : Direction), d = (s.direction).opposite →
      s.change_direction d = s := by
    rintro ⟨b, dir, gn⟩ d rfl
    cases dir <;> rfl
  have h2 : ∀ (s : Snake) (d : Direction), d ≠ (s.direction).opposite →
      s.change_direction d = { s with direction := d } := by
    rintro ⟨b, dir, gn⟩ d hd
    cases dir <;> cases d <;>
      first
      | rfl
      | exact absurd rfl hd
  refine ⟨h1, h2, ?_, ?_⟩
  · intro s _
    rw [h1 s ((s.direction).opposite) rfl]
  · intro s ds d hd
    have : applyDirections s (ds ++ [d]) =
        (applyDirections s ds).change_direction d := by
      simp [applyDirections]
    rw [this, h2 _ _ hd]

/-- C4 witness: on the fresh snake (heading right), a `Left` request is
dropped whole, an `Up` request overwrites the direction, and after the
one-frame burst `[Up, Left]` the last accepted request `Left` wins. -/
theorem C4_change_direction_witness :
    (Snake.new).change_direction .left = Snake.new ∧
    ((Snake.new).change_direction .up).direction = .up ∧
    (applyDirections Snake.new ([.up] ++ [.left])).direction = .left := by
  refine ⟨C4_change_direction.1 Snake.new .left rfl, ?_, ?_⟩
  · rw [C4_change_direction.2.1 Snake.new .up (by decide)]
  · exact C4_change_direction.2.2.2 Snake.new [.up] .left (by decide)

/-- C8: `relocate` returns a position outside the supplied avoid set — it is
the first random draw not in the set, every earlier draw being rejected. -/
theorem C8_randomize (f : Food) (avoid : List Position)
    (draws : Nat → Position) (h : ∃ n, draws n ∉ avoid) :
    (f.randomize avoid draws h).position ∉ avoid ∧
    ∀ m, m < Nat.find h → draws m ∈ avoid := by
  refine ⟨Nat.find_spec h, ?_⟩
  intro m hm
  have := Nat.find_min h hm
  simpa using this

/-- C8 witness: with the snake's start body as avoid set and a draw stream
whose first draw hits the body, relocation lands on the second draw `(0,0)`,
outside the body. -/
theorem C8_randomize_witness :
    ((Food.mk ⟨5, 10⟩).randomize (Snake.new).body
        (fun n => if n = 0 then ⟨5, 10⟩ else ⟨0, 0⟩)
        ⟨1, by decide⟩).position ∉ (Snake.new).body := by
  exact (C8_randomize (Food.mk ⟨5, 10⟩) ((Snake.new).body)
    (fun n => if n = 0 then ⟨5, 10⟩ else ⟨0, 0⟩) ⟨1, by decide⟩).1

/-- C9: initial food placement is the raw random draw, with no re-roll
against the snake; a draw inside the 40×30 grid can land on the starting
body, e.g. `(5,10)`. -/
theorem C9_initial_food :
    (∀ (t : ℚ) (draws : Nat → Position),
      (Game.new t draws).food.position = draws 0) ∧
    (0 ≤ (5 : Int) ∧ (5 : Int) < CELL_NUMBER_X ∧
      0 ≤ (10 : Int) ∧ (10 : Int) < CELL_NUMBER_Y) ∧
    (Game.new 0 (fun _ => ⟨5, 10⟩)).food.position ∈
      (Game.new 0 (fun _ => ⟨5, 10⟩)).snake.body := by
  refine ⟨fun t draws => rfl, by decide, ?_⟩
  simp [Game.new, Food.new, Food.random_position, Snake.new]

/-- C9 witness: the overlap instance of the theorem at the concrete stream
constantly `(5,10)`. -/
theorem C9_initial_food_witness :
    (Game.new 0 (fun _ => ⟨5, 10⟩)).food.position ∈
      (Game.new 0 (fun _ => ⟨5, 10⟩)).snake.body :=
  C9_initial_food.2.2

theorem check_food_collision_game_over (g : Game) (draws : Nat → Position)
    (h : (g.snake).headPos = g.food.position → ∃ n, draws n ∉ (g.snake).body) :
    (g.check_food_collision draws h).game_over = g.game_over := by
  unfold Game.check_food_collision
  split <;> rfl

theorem check_food_collision_body (g : Game) (draws : Nat → Position)
    (h : (g.snake).headPos = g.food.position → ∃ n, draws n ∉ (g.snake).body) :
    ((g.check_food_collision draws h).snake).body = (g.snake).body := by
  unfold Game.check_food_collision
  split <;> rfl

theorem check_game_over_snake (g : Game) :
    ((g.check_game_over).snake) = g.snake := by
  unfold Game.check_game_over
  split <;> rfl

theorem check_game_over_flag (g : Game) :
    (g.check_game_over).game_over =
      (g.game_over ||
        ((g.snake).check_wall_collision || (g.snake).check_self_collision)) := by
  unfold Game.check_game_over
  split <;> simp_all

theorem Snake.update_length (s : Snake) (hne : s.body ≠ []) :
    (s.update).body.length =
      s.body.length + (if s.grow_next then 1 else 0) ∧
    (s.update).grow_next = false := by
  obtain ⟨b, dir, gn⟩ := s
  cases b with
  | nil => simp at hne
  | cons p rest =>
    cases gn <;> simp [Snake.update, List.length_dropLast]


theorem update_run_eq (g : Game) (t : ℚ) (draws : Nat → Position)
    (h : ((g.snake).update).headPos = g.food.position →
      ∃ n, draws n ∉ ((g.snake).update).body)
    (hgo : g.game_over = false)
    (ht : g.update_interval ≤ t - g.last_update) :
    g.update t draws h =
      { (({ g with snake := (g.snake).update } : Game).check_food_collision
          draws h).check_game_over with last_update := t } := by
  simp [Game.update, hgo, ht]

theorem update_skip_eq (g : Game) (t : ℚ) (draws : Nat → Position)
    (h : ((g.snake).update).headPos = g.food.position →
      ∃ n, draws n ∉ ((g.snake).update).body)
    (hgo : g.game_over = false)
    (ht : t - g.last_update < g.update_interval) :
    g.update t draws h = g := by
  simp [Game.update, hgo, not_le.mpr ht]

/-- C1: with `game_over` false, a call to `Game::update` performs exactly
one tick — advance, food check, game-over check, in that order — and stamps
`last_update := t` whenever at least one interval elapsed (no catch-up
ticks), and leaves the game untouched when the elapsed time is below the
interval. -/
theorem C1_update_tick (g : Game) (t : ℚ) (draws : Nat → Position)
    (h : ((g.snake).update).headPos = g.food.position →
      ∃ n, draws n ∉ ((g.snake).update).body)
    (hgo : g.game_over = false) :
    (g.update_interval ≤ t - g.last_update →
      g.update t draws h =
        { (({ g with snake := (g.snake).update } : Game).check_food_collision
            draws h).check_game_over with last_update := t }) ∧
    (t - g.last_update < g.update_interval → g.update t draws h = g) :=
  ⟨fun ht => update_run_eq g t draws h hgo ht,
   fun ht => update_skip_eq g t draws h hgo ht⟩

/-- The RNG oracle used by the concrete witnesses: always draws `(0,0)`. -/
def exDraws : Nat → Position := fun _ => ⟨0, 0⟩

/-- The relocation-totality hypothesis at the witness instance: the draw
`(0,0)` is outside the advanced start body. -/
def exH : (((Game.new 0 exDraws).snake).update).headPos =
      (Game.new 0 exDraws).food.position →
    ∃ n, exDraws n ∉ (((Game.new 0 exDraws).snake).update).body :=
  fun _ => ⟨0, by decide⟩

/-- C1 witness: one tick of the fresh game at time 3/20 (exactly one
interval elapsed). -/
theorem C1_update_tick_witness :
    (Game.new 0 exDraws).update (3 / 20) exDraws exH =
      { (({ Game.new 0 exDraws with
            snake := ((Game.new 0 exDraws).snake).update } : Game).check_food_collision
          exDraws exH).check_game_over with last_update := 3 / 20 } :=
  (C1_update_tick (Game.new 0 exDraws) (3 / 20) exDraws exH rfl).1
    (by simp [Game.new])

/-- C3: the wall check is true iff the head left `[0,40) × [0,30)`, the
self check is true iff the head equals a body cell at index ≥ 1, and after
a gated tick `game_over` is true iff one of the two checks holds on the
advanced snake. -/
theorem C3_collision_spec (s : Snake) (g : Game) (t : ℚ)
    (draws : Nat → Position)
    (h : ((g.snake).update).headPos = g.food.position →
      ∃ n, draws n ∉ ((g.snake).update).body)
    (hgo : g.game_over = false)
    (ht : g.update_interval ≤ t - g.last_update) :
    (s.check_wall_collision = true ↔
      ((s.headPos).x < 0 ∨ CELL_NUMBER_X ≤ (s.headPos).x ∨
        (s.headPos).y < 0 ∨ CELL_NUMBER_Y ≤ (s.headPos).y)) ∧
    (s.check_self_collision = true ↔ s.headPos ∈ s.body.drop 1) ∧
    ((g.update t draws h).game_over = true ↔
      (((g.update t draws h).snake).check_wall_collision = true ∨
        ((g.update t draws h).snake).check_self_collision = true)) := by
  refine ⟨?_, ?_, ?_⟩
  · simp [Snake.check_wall_collision, or_assoc]
  · simp [Snake.check_self_collision, List.any_eq_true]
  · rw [update_run_eq g t draws h hgo ht]
    simp [check_game_over_flag, check_game_over_snake,
      check_food_collision_game_over, hgo]

/-- C3 witness: the theorem instantiated at the fresh snake and a fresh
game one interval into its first tick; the start snake does not overlap
itself. -/
theorem C3_collision_spec_witness :
    (Snake.new).check_self_collision = true ↔
      (Snake.new).headPos ∈ (Snake.new).body.drop 1 :=
  (C3_collision_spec Snake.new (Game.new 0 exDraws) (3 / 20) exDraws exH rfl
    (by simp [Game.new])).2.1

/-- C6: while game over, a frame with the restart key replaces the whole
game by a fresh instance — score 0, not game over, the length-3 snake at
the fixed start heading right with no pending growth, and a fresh food. -/
theorem C6_restart (g : Game) (inp : Input) (t : ℚ) (draws : Nat → Position)
    (hgo : g.game_over = true) (hsp : inp.space = true) :
    g.handle_input inp t draws = Game.new t draws ∧
    (Game.new t draws).score = 0 ∧
    (Game.new t draws).game_over = false ∧
    ((Game.new t draws).snake).body = [⟨5, 10⟩, ⟨4, 10⟩, ⟨3, 10⟩] ∧
    ((Game.new t draws).snake).direction = .right ∧
    ((Game.new t draws).snake).grow_next = false ∧
    (Game.new t draws).food = Food.new draws := by
  refine ⟨?_, rfl, rfl, rfl, rfl, rfl, rfl⟩
  rw [handle_input_eq]
  simp [hgo, hsp]

/-- C6 witness: a game-over state restarted at time 0 with the witness
oracle equals the fresh game. -/
theorem C6_restart_witness :
    ({ Game.new 0 exDraws with game_over := true } : Game).handle_input
        ⟨false, false, false, false, true⟩ 0 exDraws = Game.new 0 exDraws :=
  (C6_restart { Game.new 0 exDraws with game_over := true }
    ⟨false, false, false, false, true⟩ 0 exDraws rfl rfl).1

/-- C7: when the advanced head sits on the food, that tick adds 1 to the
score, leaves the body as is while requesting growth (so the next advance
lengthens the body by exactly 1), and moves the food outside the current
body; when the head misses the food, the food check changes nothing. -/
theorem C7_food_collision (g : Game) (draws : Nat → Position)
    (h : (g.snake).headPos = g.food.position → ∃ n, draws n ∉ (g.snake).body)
    (hne : (g.snake).body ≠ []) :
    ((g.snake).headPos = g.food.position →
      (g.check_food_collision draws h).score = g.score + 1 ∧
      ((g.check_food_collision draws h).snake).body = (g.snake).body ∧
      ((g.check_food_collision draws h).snake).grow_next = true ∧
      (g.check_food_collision draws h).food.position ∉ (g.snake).body ∧
      (((g.check_food_collision draws h).snake).update).body.length =
        (g.snake).body.length + 1) ∧
    ((g.snake).headPos ≠ g.food.position →
      g.check_food_collision draws h = g) := by
  constructor
  · intro heq
    have hrw : g.check_food_collision draws h =
        { g with
          snake := (g.snake).grow
          score := g.score + 1
          food := (g.food).randomize (((g.snake).grow).body) draws (h heq) } := by
      simp [Game.check_food_collision, heq]
    rw [hrw]
    refine ⟨rfl, rfl, rfl, ?_, ?_⟩
    · exact Nat.find_spec (h heq)
    · have hlen := Snake.update_length ((g.snake).grow)
        (by simpa [Snake.grow] using hne)
      simpa [Snake.grow] using hlen.1
  · intro hne2
    simp [Game.check_food_collision, hne2]

/-- The scenario-B game for the witnesses: fresh game whose food sits on
the snake's head `(5,10)`. -/
def gEat : Game :=
  { Game.new 0 exDraws with food := ⟨⟨5, 10⟩⟩ }

/-- Relocation-totality hypothesis for `gEat`: the draw `(0,0)` misses the
start body. -/
def exH7 : ((gEat).snake).headPos = gEat.food.position →
    ∃ n, exDraws n ∉ ((gEat).snake).body :=
  fun _ => ⟨0, by decide⟩

/-- C7 witness: eating at the head bumps the score to 1 and relocates the
food off the body. -/
theorem C7_food_collision_witness :
    (gEat.check_food_collision exDraws exH7).score = 0 + 1 ∧
    (gEat.check_food_collision exDraws exH7).food.position ∉
      ((gEat).snake).body := by
  have hmain := (C7_food_collision gEat exDraws exH7 (by decide)).1 rfl
  exact ⟨hmain.1, hmain.2.2.2.1⟩

theorem stepNR_preserved (a b : Game) (hab : FrameStepNR a b)
    (hgo : a.game_over = true) :
    (b.snake).body = (a.snake).body ∧ b.food = a.food ∧
      b.score = a.score ∧ b.game_over = true := by
  cases hab with
  | mk inp t draws t2 draws2 h hsp =>
    have hhi : a.handle_input inp t draws =
        { a with snake := applyKeys (a.snake) inp } := by
      rw [handle_input_eq]
      simp [hgo, hsp]
    have hupd := update_of_game_over (a.handle_input inp t draws) t2 draws2 h
      (by rw [hhi]; exact hgo)
    rw [hupd, hhi]
    exact ⟨by simp [applyKeys_body], rfl, rfl, hgo⟩

/-- C5 (amended): once `game_over` is true, any run of restart-free frames
leaves the snake body, the food, and the score untouched, and the flag
stays true — though the snake's direction field may still be mutated by
arrow-key input, see the counterexample to the claim's parenthetical. -/
theorem C5_terminal (g g' : Game)
    (hsteps : Relation.ReflTransGen FrameStepNR g g')
    (hgo : g.game_over = true) :
    ((g'.snake).body = ((g.snake)).body ∧ g'.food = g.food ∧
      g'.score = g.score ∧ g'.game_over = true) := by
  induction hsteps with
  | refl => exact ⟨rfl, rfl, rfl, hgo⟩
  | tail _ hstep ih =>
    obtain ⟨hb, hf, hsc, hflag⟩ := ih
    obtain ⟨hb2, hf2, hsc2, hflag2⟩ := stepNR_preserved _ _ hstep hflag
    exact ⟨hb2.trans hb, hf2.trans hf, hsc2.trans hsc, hflag2⟩

/-- A game-over state used by the C5 witness. -/
def gOver : Game :=
  { Game.new 0 exDraws with game_over := true }

/-- The frame input with no key pressed. -/
def inpNone : Input :=
  ⟨false, false, false, false, false⟩

/-- Relocation-totality hypothesis for the C5 witness frame. -/
def exH5 : (((gOver.handle_input inpNone 0 exDraws).snake).update).headPos =
      (gOver.handle_input inpNone 0 exDraws).food.position →
    ∃ n, exDraws n ∉
      (((gOver.handle_input inpNone 0 exDraws).snake).update).body :=
  fun _ => ⟨0, by decide⟩

/-- C5 witness: one restart-free frame after game over changes neither the
body nor the flag. -/
theorem C5_terminal_witness :
    ((((gOver.handle_input inpNone 0 exDraws).update 0 exDraws exH5).snake).body =
      ((gOver.snake)).body) ∧
    ((gOver.handle_input inpNone 0 exDraws).update 0 exDraws exH5).game_over =
      true := by
  have h := C5_terminal gOver
    ((gOver.handle_input inpNone 0 exDraws).update 0 exDraws exH5)
    (Relation.ReflTransGen.single
      (FrameStepNR.mk gOver inpNone 0 exDraws 0 exDraws exH5 rfl)) rfl
  exact ⟨h.1, h.2.2.2⟩

theorem invariant_new (t : ℚ) (draws : Nat → Position) :
    Invariant (Game.new t draws) := by
  simp [Invariant, Game.new, Snake.new]

theorem invariant_handle_input (g : Game) (inp : Input) (t : ℚ)
    (draws : Nat → Position) (hg : Invariant g) :
    Invariant (g.handle_input inp t draws) := by
  rw [handle_input_eq]
  split
  · exact invariant_new t draws
  · simpa [Invariant, applyKeys_body, applyKeys_grow] using hg

theorem invariant_body_ne (g : Game) (hg : Invariant g) :
    (g.snake).body ≠ [] := by
  intro hnil
  unfold Invariant at hg
  rw [hnil] at hg
  cases hflag : (g.snake).grow_next <;> simp [hflag] at hg <;> omega

theorem check_game_over_score (g : Game) :
    (g.check_game_over).score = g.score := by
  unfold Game.check_game_over
  split <;> rfl

theorem invariant_check_game_over (g : Game) (hg : Invariant g) :
    Invariant (g.check_game_over) := by
  unfold Invariant at hg ⊢
  rw [check_game_over_snake, check_game_over_score]
  exact hg

theorem invariant_check_food (g : Game) (draws : Nat → Position)
    (h : (g.snake).headPos = g.food.position → ∃ n, draws n ∉ (g.snake).body)
    (hflag : (g.snake).grow_next = false) (hg : Invariant g) :
    Invariant (g.check_food_collision draws h) := by
  unfold Game.check_food_collision
  split
  · unfold Invariant at hg ⊢
    simp [Snake.grow, hflag] at hg ⊢
    omega
  · exact hg

theorem invariant_update (g : Game) (t : ℚ) (draws : Nat → Position)
    (h : ((g.snake).update).headPos = g.food.position →
      ∃ n, draws n ∉ ((g.snake).update).body)
    (hg : Invariant g) : Invariant (g.update t draws h) := by
  cases hgo : g.game_over with
  | true => rw [update_of_game_over g t draws h hgo]; exact hg
  | false =>
    by_cases ht : g.update_interval ≤ t - g.last_update
    · rw [update_run_eq g t draws h hgo ht]
      have hne := invariant_body_ne g hg
      have hup := Snake.update_length (g.snake) hne
      have hinv1 : Invariant ({ g with snake := (g.snake).update } : Game) := by
        unfold Invariant at hg ⊢
        show ((g.snake).update).body.length +
          (if ((g.snake).update).grow_next then 1 else 0) = 3 + g.score
        rw [hup.1, hup.2]
        simpa using hg
      have hinv2 := invariant_check_food
        ({ g with snake := (g.snake).update } : Game) draws h hup.2 hinv1
      have hinv3 := invariant_check_game_over _ hinv2
      exact hinv3
    · rw [update_skip_eq g t draws h hgo (not_le.mp ht)]
      exact hg

theorem frameStep_invariant (a b : Game) (hab : FrameStep a b)
    (ha : Invariant a) : Invariant b := by
  cases hab with
  | mk inp t draws t2 draws2 h =>
    exact invariant_update _ t2 draws2 h (invariant_handle_input a inp t draws ha)

theorem reachable_invariant (g : Game) (hg : Reachable g) : Invariant g := by
  obtain ⟨t, draws, hsteps⟩ := hg
  induction hsteps with
  | refl => exact invariant_new t draws
  | tail _ hstep ih => exact frameStep_invariant _ _ hstep ih

/-- C10: in every reachable game state the body length is `3 + score` when
no growth is pending and `3 + score - 1` when growth is pending; a fresh
(or restarted) game re-establishes the invariant with score 0 and
length 3. -/
theorem C10_length_score (g : Game) (hg : Reachable g) :
    (((g.snake)).grow_next = false →
      ((g.snake)).body.length = 3 + g.score) ∧
    (((g.snake)).grow_next = true →
      ((g.snake)).body.length = 3 + g.score - 1) ∧
    (∀ (t : ℚ) (draws : Nat → Position),
      (Game.new t draws).score = 0 ∧
      ((Game.new t draws).snake).body.length = 3 ∧
      Invariant (Game.new t draws)) := by
  have hinv := reachable_invariant g hg
  unfold Invariant at hinv
  refine ⟨?_, ?_, ?_⟩
  · intro hflag
    rw [hflag] at hinv
    simpa using hinv
  · intro hflag
    rw [hflag] at hinv
    simp at hinv
    omega
  · intro t draws
    exact ⟨rfl, rfl, invariant_new t draws⟩

/-- C10 witness: the fresh game is reachable, has no pending growth, and
its body length is `3 + 0`. -/
theorem C10_length_score_witness :
    ((Game.new 0 exDraws).snake).body.length = 3 + (Game.new 0 exDraws).score :=
  (C10_length_score (Game.new 0 exDraws)
    ⟨0, exDraws, Relation.ReflTransGen.refl⟩).1 rfl

/-- The frame input with only the Up key pressed. -/
def inpUp : Input :=
  ⟨true, false, false, false, false⟩

/-- Relocation-totality hypothesis for the C5 counterexample frame. -/
def exH5up : (((gOver.handle_input inpUp 0 exDraws).snake).update).headPos =
      (gOver.handle_input inpUp 0 exDraws).food.position →
    ∃ n, exDraws n ∉
      (((gOver.handle_input inpUp 0 exDraws).snake).update).body :=
  fun _ => ⟨0, by decide⟩

/-- C5 counterexample: with `game_over` true, a per-frame step whose input
presses Up still mutates the snake — `handle_input` applies
`change_direction` unconditionally — so its direction flips from right to
up, refuting "no snake or food mutation occurs" as stated. -/
theorem C5_terminal_counterexample :
    gOver.game_over = true ∧
    ((gOver.snake)).direction = .right ∧
    (((gOver.handle_input inpUp 0 exDraws).update 0 exDraws exH5up).snake).direction
      = .up ∧
    ((gOver.handle_input inpUp 0 exDraws).update 0 exDraws exH5up).snake ≠
      gOver.snake :=
  ⟨rfl, rfl, by decide, by decide⟩
